import Mathlib

/-!
Verification of the resumable image-migration engine
(`migrate.py`, `src/progress_tracker.py`, `src/csv_handler.py`,
`src/cloudinary_uploader.py`, `src/image_downloader.py`).

Python dictionaries are modelled as association lists with unique keys
(`Dict`); Python's `dict.get`, item assignment and `dict.update` become
`dictGet`, `dictInsert` and `dictUpdate`.  Machine time (`datetime.now()`) is
passed in as an explicit `now : String` argument, and the durable state file
(`migration_state.json`) is modelled as an `Option MigrationState` field of
the tracker; file-write success is an explicit `ioOk : Bool` argument
(`save_state` in the source catches and logs any write error).
-/

/-- A Python `dict[str, str]`: association list, unique keys by construction. -/
abbrev Dict := List (String × String)

/-- `d.get(k)` / `d[k]` lookup: first (and, for unique keys, only) match. -/
def dictGet : Dict → String → Option String
  | [], _ => none
  | p :: rest, k => if p.1 = k then some p.2 else dictGet rest k

/-- `d[k] = v`: overwrite the existing entry in place, else append. -/
def dictInsert : Dict → String → String → Dict
  | [], k, v => [(k, v)]
  | p :: rest, k, v =>
    if p.1 = k then (k, v) :: rest else p :: dictInsert rest k v

/-- `d.update(m)`: insert every pair of `m` into `d`, in order. -/
def dictUpdate (d : Dict) (m : Dict) : Dict :=
  m.foldl (fun acc p => dictInsert acc p.1 p.2) d

/-- Python `str.strip()`: drop leading and trailing whitespace. -/
def pystrip (s : String) : String :=
  String.mk (((s.toList.dropWhile Char.isWhitespace).reverse.dropWhile
    Char.isWhitespace).reverse)

/-- Python `str(product)` for a row dict: `{'k': 'v', ...}`.
(Quote-escaping inside keys/values is not modelled; engine claims never
inspect the contents of this string.) -/
def pyStrDict (d : Dict) : String :=
  let q := String.singleton (Char.ofNat 39)
  "\x7b" ++ String.intercalate ", "
    (d.map (fun p => q ++ p.1 ++ q ++ ": " ++ q ++ p.2 ++ q)) ++ "\x7d"

/-- `MigrationState` dataclass of `src/progress_tracker.py`. -/
structure MigrationState where
  started_at : String := ""
  updated_at : String := ""
  completed_at : String := ""
  input_file : String := ""
  total_items : Nat := 0
  processed_count : Nat := 0
  success_count : Nat := 0
  failed_count : Nat := 0
  skipped_count : Nat := 0
  processed_urls : List String := []
  failed_items : List Dict := []
  mappings : List Dict := []
deriving Repr, DecidableEq

/-- `ProgressTracker`: in-memory state plus the durable snapshot file
(`self.state_file` contents, `none` when the file does not exist). -/
structure ProgressTracker where
  state : MigrationState
  snapshot : Option MigrationState
deriving Repr, DecidableEq

/-- `ProgressTracker.__init__`: fresh state with `input_file` set; the
snapshot file on disk is whatever was there before (`disk`). -/
def initTracker (disk : Option MigrationState) (input_file : String) :
    ProgressTracker :=
  { state := { input_file := input_file }, snapshot := disk }

/-- `ProgressTracker.save_state`: set `updated_at`, then try to write the
whole state to the file; a write error is caught and logged (`ioOk = false`
leaves the file unchanged). Never raises. -/
def save_state (t : ProgressTracker) (now : String) (ioOk : Bool) :
    ProgressTracker :=
  let st := { t.state with updated_at := now }
  { state := st, snapshot := if ioOk then some st else t.snapshot }

/-- `ProgressTracker.load_state`: replace the state with the snapshot when
one exists (returning `true`); otherwise stamp `started_at` and return
`false`. -/
def load_state (t : ProgressTracker) (now : String) :
    ProgressTracker × Bool :=
  match t.snapshot with
  | none => ({ t with state := { t.state with started_at := now } }, false)
  | some data => ({ t with state := data }, true)

/-- `ProgressTracker.set_total`. -/
def set_total (t : ProgressTracker) (total : Nat) : ProgressTracker :=
  { t with state := { t.state with total_items := total } }

/-- `ProgressTracker.is_processed`: `url in self.state.processed_urls`. -/
def is_processed (t : ProgressTracker) (url : String) : Bool :=
  t.state.processed_urls.contains url

/-- The record built by `mark_success` before `self.state.mappings.append`. -/
def successRecord (url new_url image_id : String) (metadata : Option Dict) :
    Dict :=
  let mapping : Dict :=
    [("old_url", url), ("new_url", new_url),
     ("cloudflare_image_id", image_id), ("status", "success"), ("error", "")]
  match metadata with
  | some m => dictUpdate mapping m
  | none => mapping

/-- `ProgressTracker.mark_success`: append the url and the success record,
bump counters, and auto-save when `processed_count % 10 == 0`. -/
def mark_success (t : ProgressTracker) (url new_url image_id : String)
    (metadata : Option Dict) (now : String) (ioOk : Bool) : ProgressTracker :=
  let st := { t.state with
    processed_urls := t.state.processed_urls ++ [url]
    processed_count := t.state.processed_count + 1
    success_count := t.state.success_count + 1 }
  let st := { st with
    mappings := st.mappings ++ [successRecord url new_url image_id metadata] }
  let t' : ProgressTracker := { t with state := st }
  if st.processed_count % 10 = 0 then save_state t' now ioOk else t'

/-- The record built by `mark_failed`. -/
def failRecord (url error : String) (metadata : Option Dict) : Dict :=
  let failed_item : Dict :=
    [("old_url", url), ("new_url", ""),
     ("cloudflare_image_id", ""), ("status", "failed"), ("error", error)]
  match metadata with
  | some m => dictUpdate failed_item m
  | none => failed_item

/-- `ProgressTracker.mark_failed`: append the url and the failed record to
both `failed_items` and `mappings`, bump counters, and always save. -/
def mark_failed (t : ProgressTracker) (url error : String)
    (metadata : Option Dict) (now : String) (ioOk : Bool) : ProgressTracker :=
  let st := { t.state with
    processed_urls := t.state.processed_urls ++ [url]
    processed_count := t.state.processed_count + 1
    failed_count := t.state.failed_count + 1 }
  let st := { st with
    failed_items := st.failed_items ++ [failRecord url error metadata]
    mappings := st.mappings ++ [failRecord url error metadata] }
  save_state { t with state := st } now ioOk

/-- `ProgressTracker.mark_skipped`: counters and `processed_urls` only. -/
def mark_skipped (t : ProgressTracker) (url : String) (_reason : String) :
    ProgressTracker :=
  { t with state := { t.state with
      processed_urls := t.state.processed_urls ++ [url]
      processed_count := t.state.processed_count + 1
      skipped_count := t.state.skipped_count + 1 } }

/-- `ProgressTracker.reset`: brand-new state (note: `input_file` is *not*
re-set), delete the snapshot file. -/
def reset (_t : ProgressTracker) (now : String) : ProgressTracker :=
  { state := { started_at := now }, snapshot := none }

/-- `ProgressTracker.get_mappings`. -/
def get_mappings (t : ProgressTracker) : List Dict :=
  t.state.mappings

/-- `ProgressTracker.get_successful_mappings`:
`[m for m in mappings if m.get('status') == 'success']`. -/
def get_successful_mappings (t : ProgressTracker) : List Dict :=
  t.state.mappings.filter (fun m => dictGet m "status" = some "success")

/-! ## Work Source and Migration Engine (`src/csv_handler.py`, `migrate.py`) -/

/-- The recognized image-URL column names, in priority order
(`csv_handler.get_image_column`). -/
def possible_names : List String :=
  ["Image Link", "image_link", "ImageLink", "image_url",
   "Image URL", "ImageURL", "image", "Image", "url", "URL"]

/-- `csv_handler.get_image_column`: first name present in the row with a
truthy (non-empty) value. -/
def get_image_column (row : Dict) : Option String :=
  possible_names.findSome? (fun name =>
    match dictGet row name with
    | some v => if v = "" then none else some v
    | none => none)

/-- The metadata bag built per item in `migrate.migrate`. -/
def rowMetadata (row : Dict) : Dict :=
  [("product_name", (dictGet row "Name").getD ""),
   ("main_category", (dictGet row "Main Category").getD ""),
   ("sub_category", (dictGet row "Sub Category").getD "")]

/-- Final outcome of processing one item, as the engine sees it after the
dry-run branch or the adapter call: dry-run and live success both end in
`mark_success`; both recognized and unexpected exceptions end in
`mark_failed` with the exception's message. -/
inductive ItemOutcome where
  | ok (new_url image_id : String)
  | err (msg : String)
deriving Repr, DecidableEq

/-- One iteration of the `for product in products` loop of
`migrate.migrate` (lines 182-269).  `attempt` abstracts the dry-run
synthesis / download / upload pipeline for an item that actually runs. -/
def engineStep (attempt : String → Dict → ItemOutcome) (now : String)
    (t : ProgressTracker) (row : Dict) : ProgressTracker :=
  match get_image_column row with
  | none => mark_skipped t (pyStrDict row) "No image URL"
  | some image_url =>
    if is_processed t image_url then t
    else
      match attempt image_url row with
      | ItemOutcome.ok new_url image_id =>
          mark_success t image_url new_url image_id (some (rowMetadata row))
            now true
      | ItemOutcome.err msg =>
          mark_failed t image_url msg (some (rowMetadata row)) now true

/-- The state-relevant core of `migrate.migrate`: build the tracker, load or
reset state depending on `resume`, record the total, then run the loop.
(Config validation, connection test, and output writing are outside the
state machine.) -/
def migrateCore (attempt : String → Dict → ItemOutcome) (now : String)
    (disk : Option MigrationState) (input_file : String) (resume : Bool)
    (rows : List Dict) : ProgressTracker :=
  let t := initTracker disk input_file
  let t := if resume then (load_state t now).1 else reset t now
  let t := set_total t rows.length
  rows.foldl (engineStep attempt now) t

/-! ## Output writing and reconciliation (`csv_handler.write_mapping_csv`,
`migrate.migrate` lines 279-299) -/

/-- Fixed column order of the mapping CSV (metadata columns enabled). -/
def mapping_fieldnames : List String :=
  ["old_url", "new_url", "cloudflare_image_id", "product_name",
   "main_category", "sub_category", "status", "error"]

/-- One CSV row written by `write_mapping_csv`'s `DictWriter`
(`extrasaction='ignore'`, default `restval ''`): the record restricted to
`mapping_fieldnames`. -/
def csvRowProjection (m : Dict) : List String :=
  mapping_fieldnames.map (fun f => (dictGet m f).getD "")

/-- All rows of the mapping CSV, in `mappings` order. -/
def write_mapping_rows (mappings : List Dict) : List String :=
  (mappings.map csvRowProjection).map (String.intercalate ",")

/-- One step of the dict comprehension
`{m['old_url']: m['new_url'] for m in mappings if m.get('status') == 'success'}`. -/
def successLookupStep (acc : Dict) (m : Dict) : Dict :=
  if dictGet m "status" = some "success"
  then dictInsert acc ((dictGet m "old_url").getD "") ((dictGet m "new_url").getD "")
  else acc

/-- The reconciler's lookup dict (`migrate.py` line 281).  Records produced
by `mark_success`/`mark_failed` always carry `old_url`/`new_url`, so the
`getD ""` defaults match Python's `m['old_url']` indexing. -/
def successLookup (mappings : List Dict) : Dict :=
  mappings.foldl successLookupStep []

/-- One row of the merged final CSV (`migrate.py` lines 292-295):
`row['New Image Link'] = mappings.get(row.get('Image Link', '').strip(), 'PENDING/FAILED')`. -/
def reconcileRow (lookup : Dict) (row : Dict) : Dict :=
  let old_url := pystrip ((dictGet row "Image Link").getD "")
  dictInsert row "New Image Link" ((dictGet lookup old_url).getD "PENDING/FAILED")

/-- The whole merged output: every original row with the appended column. -/
def reconcileOutput (mappings : List Dict) (rows : List Dict) : List Dict :=
  rows.map (reconcileRow (successLookup mappings))

/-! ## Fetch/Publish Adapter retry model (`src/cloudinary_uploader.py`,
`src/image_downloader.py`)

Exceptions are modelled by semantic class so that the spec's
transient/non-transient distinction is expressible; the attempt oracle
`call : Nat → Except PyErr String` gives the outcome of each numbered
attempt. -/

/-- Exception classes relevant to the adapter calls. -/
inductive PyErr where
  /-- `requests.RequestException`: network-class, transient. -/
  | network (msg : String)
  /-- `DownloadError` raised inside `download_image`. -/
  | downloadFailed (msg : String)
  /-- A `cloudinary.exceptions.Error` that is a validation / permanent
  rejection (non-transient). -/
  | validation (msg : String)
  /-- Any other exception. -/
  | other (msg : String)
deriving Repr, DecidableEq

/-- `tenacity.retry(stop=stop_after_attempt(n), retry=retry_if_exception_type(...))`:
run attempt `attempt`; on an error that `retryOn` accepts, retry while
`remaining` attempts are left.  Returns the final result and the number of
the last attempt made. -/
def retryLoop (retryOn : PyErr → Bool) (call : Nat → Except PyErr String) :
    Nat → Nat → Except PyErr String × Nat
  | attempt, 0 => (call attempt, attempt)
  | attempt, r + 1 =>
    match call attempt with
    | Except.ok a => (Except.ok a, attempt)
    | Except.error e =>
      if retryOn e then retryLoop retryOn call (attempt + 1) r
      else (Except.error e, attempt)

/-- `MAX_RETRIES` in `cloudinary_uploader.py`. -/
def MAX_RETRIES_CLOUDINARY : Nat := 3

/-- `MAX_RETRIES` in `image_downloader.py`. -/
def MAX_RETRIES_DOWNLOAD : Nat := 3

/-- `upload_image`'s decorator: `retry_if_exception_type((Exception,))` —
every exception class is retried. -/
def upload_image_retryOn : PyErr → Bool := fun _ => true

/-- `CloudinaryUploader.upload_image` as a retried call. -/
def upload_image_call (call : Nat → Except PyErr String) :
    Except PyErr String × Nat :=
  retryLoop upload_image_retryOn call 1 (MAX_RETRIES_CLOUDINARY - 1)

/-- `CloudinaryUploader.upload_from_url` carries no `@retry` decorator:
exactly one attempt, whatever its outcome. -/
def upload_from_url_call (call : Nat → Except PyErr String) :
    Except PyErr String × Nat :=
  (call 1, 1)

/-- `download_image`'s decorator:
`retry_if_exception_type((requests.RequestException, DownloadError))`. -/
def download_retryOn : PyErr → Bool
  | PyErr.network _ => true
  | PyErr.downloadFailed _ => true
  | _ => false

/-- `download_image` as a retried call. -/
def download_image_call (call : Nat → Except PyErr String) :
    Except PyErr String × Nat :=
  retryLoop download_retryOn call 1 (MAX_RETRIES_DOWNLOAD - 1)

/-! ## Derived characterizations and concrete fixtures -/

/-- The value the reconciler's dict-comprehension lookup ends up holding for
key `k`: the `new_url` of the *last* status=success record whose `old_url`
is `k` (later duplicates overwrite earlier ones), if any. -/
def lastSuccessVal : List Dict → String → Option String
  | [], _ => none
  | m :: rest, k =>
    match lastSuccessVal rest k with
    | some v => some v
    | none =>
      if dictGet m "status" = some "success" ∧ (dictGet m "old_url").getD "" = k
      then some ((dictGet m "new_url").getD "")
      else none

/-! ## Sequences of tracker calls (for the counter invariant) -/

/-- One call to a marking method of `ProgressTracker`. -/
inductive TrackOp where
  | success (url new_url image_id : String) (metadata : Option Dict)
      (now : String) (ioOk : Bool)
  | failed (url error : String) (metadata : Option Dict)
      (now : String) (ioOk : Bool)
  | skipped (url reason : String)
deriving Repr

/-- Apply one marking call. -/
def applyOp (t : ProgressTracker) : TrackOp → ProgressTracker
  | TrackOp.success u n i m now io => mark_success t u n i m now io
  | TrackOp.failed u e m now io => mark_failed t u e m now io
  | TrackOp.skipped u r => mark_skipped t u r

/-- The counter invariant of the spec. -/
def countersOk (st : MigrationState) : Prop :=
  st.processed_count = st.success_count + st.failed_count + st.skipped_count

/-- Ten input rows, each with a distinct image link. -/
def rows10 : List Dict :=
  [[("Name", "P1"), ("Image Link", "u1")], [("Name", "P2"), ("Image Link", "u2")],
   [("Name", "P3"), ("Image Link", "u3")], [("Name", "P4"), ("Image Link", "u4")],
   [("Name", "P5"), ("Image Link", "u5")], [("Name", "P6"), ("Image Link", "u6")],
   [("Name", "P7"), ("Image Link", "u7")], [("Name", "P8"), ("Image Link", "u8")],
   [("Name", "P9"), ("Image Link", "u9")], [("Name", "P10"), ("Image Link", "u10")]]

/-- A persisted snapshot after 3 of the 10 items were processed. -/
def resumeState3 : MigrationState :=
  { started_at := "t0", updated_at := "t0", input_file := "products.csv"
    total_items := 10, processed_count := 3, success_count := 3
    processed_urls := ["u1", "u2", "u3"]
    mappings := [successRecord "u1" "n1" "i1" none,
                 successRecord "u2" "n2" "i2" none,
                 successRecord "u3" "n3" "i3" none] }

/-- An adapter/dry-run oracle that succeeds on every item. -/
def okAttempt : String → Dict → ItemOutcome :=
  fun url _ => ItemOutcome.ok ("new-" ++ url) "img"

/-- A tracker whose state already holds the refs of `resumeState3`. -/
def c1WitnessTracker : ProgressTracker :=
  { state := resumeState3, snapshot := some resumeState3 }

/-- A fresh tracker after one `mark_skipped` call followed by ten
consecutive `mark_success` calls (no intervening failure). -/
def skipThenTen : ProgressTracker :=
  let t := initTracker none "products.csv"
  let t := mark_skipped t "row-without-image" "No image URL"
  (List.range 10).foldl
    (fun acc i =>
      mark_success acc ("u" ++ toString i) ("n" ++ toString i) "img" none
        "t1" true) t

/-- A fresh tracker after exactly ten consecutive `mark_success` calls. -/
def tenSuccesses : ProgressTracker :=
  (List.range 10).foldl
    (fun acc i =>
      mark_success acc ("u" ++ toString i) ("n" ++ toString i) "img" none
        "t1" true)
    (initTracker none "products.csv")

/-- A row with no recognized image-reference column. -/
def c7_row : Dict := [("Name", "Apple")]

/-- Snapshot of a completed run over the single no-image-URL row:
that row was marked skipped, so `processed_count == total_items == 1`. -/
def c7_prior : MigrationState :=
  { started_at := "t0", updated_at := "t0", input_file := "products.csv"
    total_items := 1, processed_count := 1, skipped_count := 1
    processed_urls := [pyStrDict c7_row] }

/-- A row whose image reference lives in the `image_url` column (one of the
recognized variants), not in `Image Link`. -/
def c6_row : Dict := [("image_url", "http://old")]

/-- A mappings list holding a successful migration of that reference. -/
def c6_mappings : List Dict :=
  [successRecord "http://old" "http://new" "img1" none]

/-! ## Dictionary lemmas -/

lemma dictGet_insert_self (d : Dict) (k v : String) :
    dictGet (dictInsert d k v) k = some v := by
  induction d with
  | nil => simp [dictInsert, dictGet]
  | cons p rest ih =>
    by_cases h : p.1 = k
    · simp [dictInsert, h, dictGet]
    · simp [dictInsert, h, dictGet, ih]

lemma dictGet_insert_ne (d : Dict) (k' v k : String) (h : k' ≠ k) :
    dictGet (dictInsert d k' v) k = dictGet d k := by
  induction d with
  | nil => simp [dictInsert, dictGet, h]
  | cons p rest ih =>
    by_cases hp : p.1 = k'
    · have hpk : p.1 ≠ k := by rw [hp]; exact h
      simp [dictInsert, hp, dictGet, h, hpk]
    · by_cases hk : p.1 = k <;> simp [dictInsert, hp, dictGet, hk, ih, Ne.symm h]

lemma dictUpdate_nil (d : Dict) : dictUpdate d [] = d := rfl

lemma dictUpdate_cons (d : Dict) (p : String × String) (m : Dict) :
    dictUpdate d (p :: m) = dictUpdate (dictInsert d p.1 p.2) m := rfl

lemma dictGet_update_not_mem (m : Dict) :
    ∀ (d : Dict) (k : String), k ∉ m.map Prod.fst →
    dictGet (dictUpdate d m) k = dictGet d k := by
  induction m with
  | nil => intro d k _; rfl
  | cons p rest ih =>
    intro d k h
    simp only [List.map_cons, List.mem_cons] at h
    push_neg at h
    rw [dictUpdate_cons, ih _ _ h.2, dictGet_insert_ne _ _ _ _ (Ne.symm h.1)]

lemma dictGet_update_of_get (m : Dict) :
    ∀ (d : Dict) (k v : String), (m.map Prod.fst).Nodup →
    dictGet m k = some v → dictGet (dictUpdate d m) k = some v := by
  induction m with
  | nil => intro d k v _ h; simp [dictGet] at h
  | cons p rest ih =>
    intro d k v hnd h
    simp only [List.map_cons, List.nodup_cons] at hnd
    rw [dictUpdate_cons]
    by_cases hk : p.1 = k
    · have hv : p.2 = v := by simpa [dictGet, hk] using h
      have hmem : k ∉ rest.map Prod.fst := hk ▸ hnd.1
      rw [dictGet_update_not_mem rest _ _ hmem, hk, dictGet_insert_self, hv]
    · have h' : dictGet rest k = some v := by simpa [dictGet, hk] using h
      exact ih _ _ _ hnd.2 h'

/-! ## Characterizing the reconciler's success lookup -/

lemma dictGet_foldl_successLookupStep (ms : List Dict) :
    ∀ (acc : Dict) (k : String),
    dictGet (ms.foldl successLookupStep acc) k =
      (lastSuccessVal ms k).orElse (fun _ => dictGet acc k) := by
  induction ms with
  | nil => intro acc k; rfl
  | cons m rest ih =>
    intro acc k
    rw [List.foldl_cons, ih]
    cases hrest : lastSuccessVal rest k with
    | some v => simp [lastSuccessVal, hrest, Option.orElse]
    | none =>
      simp only [lastSuccessVal, hrest, Option.orElse]
      by_cases hs : dictGet m "status" = some "success"
      · by_cases hk : (dictGet m "old_url").getD "" = k
        · simp [successLookupStep, hs, hk, dictGet_insert_self]
        · simp [successLookupStep, hs, hk, dictGet_insert_ne _ _ _ _ hk]
      · simp [successLookupStep, hs]

lemma dictGet_successLookup (ms : List Dict) (k : String) :
    dictGet (successLookup ms) k = lastSuccessVal ms k := by
  have h := dictGet_foldl_successLookupStep ms [] k
  cases h' : lastSuccessVal ms k <;>
    simpa [successLookup, dictGet, h', Option.orElse] using h

lemma lastSuccessVal_mem (ms : List Dict) (k v : String) :
    lastSuccessVal ms k = some v →
    ∃ m ∈ ms, dictGet m "status" = some "success"
      ∧ (dictGet m "old_url").getD "" = k
      ∧ (dictGet m "new_url").getD "" = v := by
  induction ms with
  | nil => intro h; simp [lastSuccessVal] at h
  | cons m rest ih =>
    intro h
    cases hrest : lastSuccessVal rest k with
    | some w =>
      simp only [lastSuccessVal, hrest] at h
      obtain ⟨m', hm', hprops⟩ := ih (hrest.trans (congrArg some (Option.some.inj h)))
      exact ⟨m', List.mem_cons_of_mem _ hm', hprops⟩
    | none =>
      simp only [lastSuccessVal, hrest] at h
      by_cases hc : dictGet m "status" = some "success"
          ∧ (dictGet m "old_url").getD "" = k
      · rw [if_pos hc] at h
        exact ⟨m, List.mem_cons_self .., hc.1, hc.2, Option.some.inj h⟩
      · rw [if_neg hc] at h
        exact absurd h (by simp)

lemma lastSuccessVal_none (ms : List Dict) (k : String)
    (h : ∀ m ∈ ms, dictGet m "status" = some "success" →
      (dictGet m "old_url").getD "" ≠ k) :
    lastSuccessVal ms k = none := by
  induction ms with
  | nil => rfl
  | cons m rest ih =>
    have hrest := ih (fun m' hm' => h m' (List.mem_cons_of_mem _ hm'))
    have hm : ¬(dictGet m "status" = some "success"
        ∧ (dictGet m "old_url").getD "" = k) := by
      rintro ⟨h1, h2⟩
      exact h m (List.mem_cons_self ..) h1 h2
    simp [lastSuccessVal, hrest, hm]

lemma reconcileRow_get (lookup row : Dict) :
    dictGet (reconcileRow lookup row) "New Image Link"
      = some ((dictGet lookup
          (pystrip ((dictGet row "Image Link").getD ""))).getD "PENDING/FAILED") :=
  dictGet_insert_self ..

/-! ## Field lemmas for the tracker operations -/

lemma mark_success_processed (t : ProgressTracker) (u n i : String)
    (m : Option Dict) (now : String) (io : Bool) :
    (mark_success t u n i m now io).state.processed_count
      = t.state.processed_count + 1 := by
  unfold mark_success; dsimp only; split <;> rfl

lemma mark_success_succ (t : ProgressTracker) (u n i : String)
    (m : Option Dict) (now : String) (io : Bool) :
    (mark_success t u n i m now io).state.success_count
      = t.state.success_count + 1 := by
  unfold mark_success; dsimp only; split <;> rfl

lemma mark_success_fail (t : ProgressTracker) (u n i : String)
    (m : Option Dict) (now : String) (io : Bool) :
    (mark_success t u n i m now io).state.failed_count
      = t.state.failed_count := by
  unfold mark_success; dsimp only; split <;> rfl

lemma mark_success_skip (t : ProgressTracker) (u n i : String)
    (m : Option Dict) (now : String) (io : Bool) :
    (mark_success t u n i m now io).state.skipped_count
      = t.state.skipped_count := by
  unfold mark_success; dsimp only; split <;> rfl

lemma mark_success_total (t : ProgressTracker) (u n i : String)
    (m : Option Dict) (now : String) (io : Bool) :
    (mark_success t u n i m now io).state.total_items
      = t.state.total_items := by
  unfold mark_success; dsimp only; split <;> rfl

lemma mark_success_mappings (t : ProgressTracker) (u n i : String)
    (m : Option Dict) (now : String) (io : Bool) :
    (mark_success t u n i m now io).state.mappings
      = t.state.mappings ++ [successRecord u n i m] := by
  unfold mark_success; dsimp only; split <;> rfl

lemma mark_success_failed_items (t : ProgressTracker) (u n i : String)
    (m : Option Dict) (now : String) (io : Bool) :
    (mark_success t u n i m now io).state.failed_items
      = t.state.failed_items := by
  unfold mark_success; dsimp only; split <;> rfl

lemma mark_failed_counts (t : ProgressTracker) (u e : String)
    (m : Option Dict) (now : String) (io : Bool) :
    (mark_failed t u e m now io).state.processed_count
        = t.state.processed_count + 1
    ∧ (mark_failed t u e m now io).state.failed_count
        = t.state.failed_count + 1
    ∧ (mark_failed t u e m now io).state.success_count = t.state.success_count
    ∧ (mark_failed t u e m now io).state.skipped_count = t.state.skipped_count
    ∧ (mark_failed t u e m now io).state.total_items = t.state.total_items
    ∧ (mark_failed t u e m now io).state.mappings
        = t.state.mappings ++ [failRecord u e m]
    ∧ (mark_failed t u e m now io).state.failed_items
        = t.state.failed_items ++ [failRecord u e m] :=
  ⟨rfl, rfl, rfl, rfl, rfl, rfl, rfl⟩

lemma mark_skipped_counts (t : ProgressTracker) (u r : String) :
    (mark_skipped t u r).state.processed_count = t.state.processed_count + 1
    ∧ (mark_skipped t u r).state.skipped_count = t.state.skipped_count + 1
    ∧ (mark_skipped t u r).state.success_count = t.state.success_count
    ∧ (mark_skipped t u r).state.failed_count = t.state.failed_count
    ∧ (mark_skipped t u r).state.total_items = t.state.total_items
    ∧ (mark_skipped t u r).state.mappings = t.state.mappings
    ∧ (mark_skipped t u r).state.failed_items = t.state.failed_items
    ∧ (mark_skipped t u r).snapshot = t.snapshot :=
  ⟨rfl, rfl, rfl, rfl, rfl, rfl, rfl, rfl⟩

lemma applyOp_countersOk (t : ProgressTracker) (op : TrackOp)
    (h : countersOk t.state) : countersOk (applyOp t op).state := by
  cases op with
  | success u n i m now io =>
    unfold countersOk at *
    rw [applyOp, mark_success_processed, mark_success_succ, mark_success_fail,
      mark_success_skip]
    omega
  | failed u e m now io =>
    have hc := mark_failed_counts t u e m now io
    unfold countersOk at *
    rw [applyOp, hc.1, hc.2.1, hc.2.2.1, hc.2.2.2.1]
    omega
  | skipped u r =>
    have hc := mark_skipped_counts t u r
    unfold countersOk at *
    rw [applyOp, hc.1, hc.2.1, hc.2.2.1, hc.2.2.2.1]
    omega

lemma foldl_applyOp_countersOk (ops : List TrackOp) :
    ∀ t : ProgressTracker, countersOk t.state →
    countersOk ((ops.foldl applyOp t).state) := by
  induction ops with
  | nil => intro t h; exact h
  | cons op rest ih => intro t h; exact ih _ (applyOp_countersOk t op h)

/-! ## Engine-step lemmas -/

lemma engineStep_total (a : String → Dict → ItemOutcome) (now : String)
    (t : ProgressTracker) (row : Dict) :
    (engineStep a now t row).state.total_items = t.state.total_items := by
  unfold engineStep
  cases get_image_column row with
  | none => rfl
  | some url =>
    by_cases hp : is_processed t url
    · simp [hp]
    · cases h : a url row with
      | ok nu ii => simp [hp, h, mark_success_total]
      | err msg =>
        simp [hp, h, (mark_failed_counts t url msg _ now true).2.2.2.2.1]

lemma engineStep_processed_le (a : String → Dict → ItemOutcome) (now : String)
    (t : ProgressTracker) (row : Dict) :
    (engineStep a now t row).state.processed_count
      ≤ t.state.processed_count + 1 := by
  unfold engineStep
  cases get_image_column row with
  | none => exact Nat.le_of_eq (mark_skipped_counts t _ _).1
  | some url =>
    by_cases hp : is_processed t url
    · simp [hp]
    · cases h : a url row with
      | ok nu ii => simp [hp, h, mark_success_processed]
      | err msg =>
        simp [hp, h, (mark_failed_counts t url msg _ now true).1]

lemma foldl_engineStep_bound (a : String → Dict → ItemOutcome) (now : String)
    (l : List Dict) :
    ∀ t : ProgressTracker,
    ((l.foldl (engineStep a now) t).state.total_items = t.state.total_items)
    ∧ ((l.foldl (engineStep a now) t).state.processed_count
        ≤ t.state.processed_count + l.length) := by
  induction l with
  | nil => intro t; exact ⟨rfl, Nat.le_add_right _ _⟩
  | cons row rest ih =>
    intro t
    rw [List.foldl_cons]
    refine ⟨(ih _).1.trans (engineStep_total a now t row), ?_⟩
    have h1 := (ih (engineStep a now t row)).2
    have h2 := engineStep_processed_le a now t row
    simpa [List.length_cons] using h1.trans (by omega)

/-! ## Claim theorems -/

/-- C1: a source reference already present in `processed_urls` makes the
engine's loop body a no-op — `succeeded`, `failed` and `mappings` (indeed
the whole tracker) are unchanged; and resuming after 3 of 10 items were
processed (snapshot holding 3 processed refs) processes only the remaining
7, ending with `processed_count = 10`. -/
theorem engine_resume_idempotent :
    (∀ (attempt : String → Dict → ItemOutcome) (now : String)
        (t : ProgressTracker) (row : Dict) (url : String),
      get_image_column row = some url → is_processed t url = true →
      engineStep attempt now t row = t)
    ∧ (∀ (attempt : String → Dict → ItemOutcome) (now : String)
        (t : ProgressTracker) (row : Dict),
      get_image_column row = none →
      (engineStep attempt now t row).state.success_count
          = t.state.success_count
        ∧ (engineStep attempt now t row).state.failed_count
            = t.state.failed_count
        ∧ (engineStep attempt now t row).state.mappings = t.state.mappings)
    ∧ (migrateCore okAttempt "t1" (some resumeState3) "products.csv" true
        rows10).state.processed_count = 10 := by
  refine ⟨?_, ?_, rfl⟩
  · intro attempt now t row url hg hp
    unfold engineStep
    rw [hg]
    simp [hp]
  · intro attempt now t row hg
    unfold engineStep
    rw [hg]
    exact ⟨rfl, rfl, rfl⟩

/-- Witness for C1 at a concrete processed reference. -/
theorem engine_resume_idempotent_witness :
    engineStep okAttempt "t1" c1WitnessTracker
      [("Name", "P1"), ("Image Link", "u1")] = c1WitnessTracker :=
  engine_resume_idempotent.1 okAttempt "t1" c1WitnessTracker
    [("Name", "P1"), ("Image Link", "u1")] "u1" rfl rfl

/-- C2: after any sequence of `mark_success`/`mark_failed`/`mark_skipped`
calls on a freshly initialized tracker,
`processed_count = success_count + failed_count + skipped_count`. -/
theorem counters_sum_invariant (ops : List TrackOp) (input_file : String) :
    ((ops.foldl applyOp (initTracker none input_file)).state).processed_count
      = ((ops.foldl applyOp (initTracker none input_file)).state).success_count
        + ((ops.foldl applyOp (initTracker none input_file)).state).failed_count
        + ((ops.foldl applyOp (initTracker none input_file)).state).skipped_count :=
  foldl_applyOp_countersOk ops (initTracker none input_file) rfl

/-- C3 counterexample: one skip followed by ten consecutive `mark_success`
calls (no intervening failure).  The auto-save fires at the 9th success
(when `processed_count` reaches 10), so the persisted snapshot reflects
only 9 of the 10 successes and misses the url of the 10th ("u9"). -/
theorem batched_flush_counterexample :
    skipThenTen.state.success_count = 10
    ∧ skipThenTen.snapshot.map (fun st => st.success_count) = some 9
    ∧ skipThenTen.snapshot.map (fun st => st.processed_urls.contains "u9")
        = some false
    ∧ skipThenTen.snapshot ≠ some skipThenTen.state := by
  refine ⟨by decide, by decide, by decide, by decide⟩

/-- C3 corrected: `mark_success` triggers `save()` exactly when the
post-increment `processed_count` — which counts successes, failures and
skips together — is a multiple of 10; in particular, starting from a
freshly initialized tracker, after 10 consecutive `mark_success` calls the
persisted snapshot reflects all 10 successes. -/
theorem batched_flush_amended :
    (∀ (t : ProgressTracker) (u n i : String) (m : Option Dict)
        (now : String),
      (mark_success t u n i m now true).snapshot =
        if (t.state.processed_count + 1) % 10 = 0
        then some (mark_success t u n i m now true).state
        else t.snapshot)
    ∧ (tenSuccesses.snapshot = some tenSuccesses.state
      ∧ tenSuccesses.state.success_count = 10
      ∧ tenSuccesses.state.mappings.length = 10) := by
  constructor
  · intro t u n i m now
    by_cases h : (t.state.processed_count + 1) % 10 = 0 <;>
      simp [mark_success, save_state, h]
  · exact ⟨by decide, by decide, by decide⟩

/-- C4: `mark_failed` always triggers an immediate `save()`: when the write
succeeds, the snapshot on durable storage equals the updated state and
contains the failure record, and a fresh tracker loading that snapshot
(crash simulation) sees the failure. -/
theorem failed_flush_persists (t : ProgressTracker) (u e : String)
    (m : Option Dict) (now input_file now2 : String) :
    ((mark_failed t u e m now true).snapshot
        = some (mark_failed t u e m now true).state)
    ∧ failRecord u e m ∈ (mark_failed t u e m now true).state.mappings
    ∧ (load_state
        (initTracker (mark_failed t u e m now true).snapshot input_file)
        now2).2 = true
    ∧ ((load_state
        (initTracker (mark_failed t u e m now true).snapshot input_file)
        now2).1).state.failed_count = t.state.failed_count + 1
    ∧ failRecord u e m ∈ ((load_state
        (initTracker (mark_failed t u e m now true).snapshot input_file)
        now2).1).state.failed_items := by
  refine ⟨rfl, ?_, rfl, rfl, ?_⟩
  · exact List.mem_append_right _ (List.mem_singleton_self _)
  · exact List.mem_append_right _ (List.mem_singleton_self _)

/-- C9: `save_state` never raises — a failed file write (`ioOk = false`) is
swallowed, leaving the previous snapshot unchanged while the in-memory
state (including the freshly stamped `updated_at`) is kept; so a
`mark_failed` flush can complete without the failure being persisted. -/
theorem save_error_swallowed (t : ProgressTracker) (u e : String)
    (m : Option Dict) (now : String) :
    ((save_state t now false).snapshot = t.snapshot
      ∧ (save_state t now false).state
          = { t.state with updated_at := now })
    ∧ ((mark_failed t u e m now false).snapshot = t.snapshot
      ∧ (mark_failed t u e m now false).state.updated_at = now
      ∧ (mark_failed t u e m now false).state.failed_count
          = t.state.failed_count + 1
      ∧ failRecord u e m ∈ (mark_failed t u e m now false).state.mappings) := by
  refine ⟨⟨rfl, rfl⟩, rfl, rfl, rfl, ?_⟩
  exact List.mem_append_right _ (List.mem_singleton_self _)

/-! ## Retry-loop lemmas and adapter claims -/

lemma retryLoop_le (p : PyErr → Bool) (call : Nat → Except PyErr String) :
    ∀ (r attempt : Nat), (retryLoop p call attempt r).2 ≤ attempt + r := by
  intro r
  induction r with
  | zero => intro attempt; simp [retryLoop]
  | succ r ih =>
    intro attempt
    cases h : call attempt with
    | ok a => simp [retryLoop, h]
    | error e =>
      by_cases hp : p e = true
      · have := ih (attempt + 1)
        simp only [retryLoop, h, hp, if_true]
        omega
      · simp only [Bool.not_eq_true] at hp
        simp [retryLoop, h, hp]

lemma retryLoop_all_fail (p : PyErr → Bool) (call : Nat → Except PyErr String)
    (hall : ∀ n, ∃ e, call n = Except.error e ∧ p e = true) :
    ∀ (r attempt : Nat), (retryLoop p call attempt r).2 = attempt + r := by
  intro r
  induction r with
  | zero => intro attempt; simp [retryLoop]
  | succ r ih =>
    intro attempt
    obtain ⟨e, he, hp⟩ := hall attempt
    simp only [retryLoop, he, hp, if_true]
    rw [ih (attempt + 1)]
    omega

/-- C5 counterexample: a non-transient validation error passed to
`upload_image` is retried to the full 3 attempts instead of failing
immediately, and a transient network error in `upload_from_url` is not
retried at all (a second attempt would have succeeded). -/
theorem adapter_retry_counterexample :
    ((upload_image_call
        (fun _ => Except.error (PyErr.validation "invalid image"))).2 = 3
      ∧ (3 : Nat) ≠ 1)
    ∧ upload_from_url_call
        (fun n => if n = 1 then Except.error (PyErr.network "timeout")
                  else Except.ok "uploaded")
        = (Except.error (PyErr.network "timeout"), 1) := by
  refine ⟨⟨by decide, by decide⟩, rfl⟩

/-- C5 corrected: `upload_image` is retried up to 3 attempts on *every*
exception class (so non-transient errors are retried rather than failing
immediately); `upload_from_url` makes exactly one attempt with no retry;
`download_image` is retried up to 3 attempts on network/download errors
only, and any other error fails on the first attempt. -/
theorem adapter_retry_amended (call : Nat → Except PyErr String) :
    ((upload_image_call call).2 ≤ 3)
    ∧ ((∀ n, ∃ e, call n = Except.error e) → (upload_image_call call).2 = 3)
    ∧ (upload_from_url_call call = (call 1, 1))
    ∧ ((download_image_call call).2 ≤ 3)
    ∧ (∀ e, call 1 = Except.error e → download_retryOn e = false →
        download_image_call call = (Except.error e, 1))
    ∧ ((∀ n, ∃ e, call n = Except.error e ∧ download_retryOn e = true) →
        (download_image_call call).2 = 3) := by
  refine ⟨?_, ?_, rfl, ?_, ?_, ?_⟩
  · exact retryLoop_le upload_image_retryOn call 2 1
  · intro hall
    have hall' : ∀ n, ∃ e, call n = Except.error e
        ∧ upload_image_retryOn e = true := by
      intro n
      obtain ⟨e, he⟩ := hall n
      exact ⟨e, he, rfl⟩
    exact retryLoop_all_fail _ call hall' 2 1
  · exact retryLoop_le download_retryOn call 2 1
  · intro e he hp
    show retryLoop download_retryOn call 1 2 = (Except.error e, 1)
    simp [retryLoop, he, hp]
  · intro hall
    exact retryLoop_all_fail _ call hall 2 1

/-- Witness for C5 corrected: always-failing oracles pin the attempt
counts. -/
theorem adapter_retry_amended_witness :
    (upload_image_call (fun _ => Except.error (PyErr.network "boom"))).2 = 3
    ∧ download_image_call (fun _ => Except.error (PyErr.validation "bad"))
        = (Except.error (PyErr.validation "bad"), 1)
    ∧ (download_image_call (fun _ => Except.error (PyErr.network "boom"))).2
        = 3 := by
  refine ⟨(adapter_retry_amended _).2.1 (fun n => ⟨PyErr.network "boom", rfl⟩),
    (adapter_retry_amended _).2.2.2.2.1 (PyErr.validation "bad") rfl rfl,
    (adapter_retry_amended _).2.2.2.2.2
      (fun n => ⟨PyErr.network "boom", rfl, rfl⟩)⟩

/-- C6 counterexample: a row whose image reference lives in the recognized
`image_url` column is migrated successfully, yet the reconciler — which
looks up the literal `Image Link` column, not the prioritized extraction —
appends the sentinel instead of the destination URL. -/
theorem reconcile_lookup_counterexample :
    get_image_column c6_row = some "http://old"
    ∧ dictGet (successLookup c6_mappings) "http://old" = some "http://new"
    ∧ dictGet (reconcileRow (successLookup c6_mappings) c6_row)
        "New Image Link" = some "PENDING/FAILED"
    ∧ (some "PENDING/FAILED" : Option String) ≠ some "http://new" := by
  refine ⟨rfl, rfl, rfl, by decide⟩

/-- C6 corrected: the appended column equals the destination URL of the
last status=success mapping whose `old_url` equals the *stripped `Image
Link` column value of the row* (not the prioritized image-reference
extraction), and the sentinel "PENDING/FAILED" otherwise; the lookup is
built only from status=success entries. -/
theorem reconcile_lookup_amended :
    (∀ (ms : List Dict) (row : Dict),
      dictGet (reconcileRow (successLookup ms) row) "New Image Link"
        = some ((lastSuccessVal ms
            (pystrip ((dictGet row "Image Link").getD ""))).getD
              "PENDING/FAILED"))
    ∧ (∀ (ms : List Dict) (k v : String), lastSuccessVal ms k = some v →
        ∃ m ∈ ms, dictGet m "status" = some "success"
          ∧ (dictGet m "old_url").getD "" = k
          ∧ (dictGet m "new_url").getD "" = v) := by
  constructor
  · intro ms row
    rw [reconcileRow_get, dictGet_successLookup]
  · exact fun ms k v h => lastSuccessVal_mem ms k v h

/-- Witness for C6 corrected at a concrete mapping list and row. -/
theorem reconcile_lookup_amended_witness :
    dictGet (reconcileRow (successLookup c6_mappings)
        [("Image Link", "http://old")]) "New Image Link"
      = some "http://new"
    ∧ ∃ m ∈ c6_mappings, dictGet m "status" = some "success"
        ∧ (dictGet m "old_url").getD "" = "http://old"
        ∧ (dictGet m "new_url").getD "" = "http://new" := by
  constructor
  · exact (reconcile_lookup_amended.1 c6_mappings
      [("Image Link", "http://old")]).trans (by decide)
  · exact reconcile_lookup_amended.2 c6_mappings "http://old" "http://new"
      (by decide)

/-- C7 counterexample: resuming over the same single-row input whose row
has no recognized image-reference column re-marks that row skipped (the
`is_processed` check is bypassed on the no-image-URL path), driving
`processed_count` to 2 while `total_items` is 1. -/
theorem processed_le_total_counterexample :
    (migrateCore okAttempt "t1" (some c7_prior) "products.csv" true
        [c7_row]).state.processed_count = 2
    ∧ (migrateCore okAttempt "t1" (some c7_prior) "products.csv" true
        [c7_row]).state.total_items = 1
    ∧ ¬((migrateCore okAttempt "t1" (some c7_prior) "products.csv" true
          [c7_row]).state.processed_count
        ≤ (migrateCore okAttempt "t1" (some c7_prior) "products.csv" true
          [c7_row]).state.total_items) := by
  refine ⟨by decide, by decide, by decide⟩

/-- C7 corrected: in a run started with a fresh state (the non-resume path,
which calls `reset`), `processed_count ≤ total_items` holds after every
prefix of the processing loop, for any adapter outcomes and any batch
truncation; resume runs can violate the bound (see the counterexample). -/
theorem processed_le_total_fresh (disk : Option MigrationState)
    (input_file now : String) (attempt : String → Dict → ItemOutcome)
    (rows : List Dict) (k : Nat) :
    (((rows.take k).foldl (engineStep attempt now)
        (set_total (reset (initTracker disk input_file) now)
          rows.length)).state.processed_count)
      ≤ (((rows.take k).foldl (engineStep attempt now)
        (set_total (reset (initTracker disk input_file) now)
          rows.length)).state.total_items) := by
  have h := foldl_engineStep_bound attempt now (rows.take k)
    (set_total (reset (initTracker disk input_file) now) rows.length)
  rw [h.1]
  have h2 : (((rows.take k).foldl (engineStep attempt now)
      (set_total (reset (initTracker disk input_file) now)
        rows.length)).state.processed_count)
      ≤ 0 + (rows.take k).length := h.2
  have hlen : (rows.take k).length ≤ rows.length := by
    rw [List.length_take]
    exact Nat.min_le_right _ _
  show _ ≤ rows.length
  omega

/-- C8: `mark_skipped` increments `processed_count` and `skipped_count` and
appends the reference to `processed_urls`, leaving `mappings`,
`failed_items` and the snapshot untouched; hence a reference never recorded
in `mappings` stays absent from `mappings` and from the written mapping
CSV, and the reconciled output shows the sentinel for it. -/
theorem skip_asymmetry (t : ProgressTracker) (u reason : String) :
    ((mark_skipped t u reason).state.processed_count
        = t.state.processed_count + 1
      ∧ (mark_skipped t u reason).state.skipped_count
          = t.state.skipped_count + 1
      ∧ (mark_skipped t u reason).state.processed_urls
          = t.state.processed_urls ++ [u]
      ∧ (mark_skipped t u reason).state.mappings = t.state.mappings
      ∧ (mark_skipped t u reason).state.failed_items = t.state.failed_items
      ∧ (mark_skipped t u reason).snapshot = t.snapshot)
    ∧ ((∀ m ∈ t.state.mappings, (dictGet m "old_url").getD "" ≠ u) →
        (∀ m ∈ (mark_skipped t u reason).state.mappings,
            (dictGet m "old_url").getD "" ≠ u
            ∧ (csvRowProjection m).headD "" ≠ u)
        ∧ (∀ row : Dict, pystrip ((dictGet row "Image Link").getD "") = u →
            dictGet (reconcileRow
                (successLookup (mark_skipped t u reason).state.mappings) row)
              "New Image Link" = some "PENDING/FAILED")) := by
  refine ⟨⟨rfl, rfl, rfl, rfl, rfl, rfl⟩, ?_⟩
  intro hno
  have hmap : (mark_skipped t u reason).state.mappings = t.state.mappings :=
    rfl
  constructor
  · intro m hm
    rw [hmap] at hm
    exact ⟨hno m hm, hno m hm⟩
  · intro row hrow
    rw [reconcileRow_get, hrow, hmap, dictGet_successLookup,
      lastSuccessVal_none]
    · rfl
    · intro m hm _
      exact hno m hm

/-- Witness for C8: a freshly initialized tracker, one skipped reference,
and a row carrying exactly that reference. -/
theorem skip_asymmetry_witness :
    dictGet (reconcileRow
        (successLookup (mark_skipped (initTracker none "products.csv")
          "u-skip" "No image URL").state.mappings)
        [("Image Link", "u-skip")]) "New Image Link"
      = some "PENDING/FAILED" :=
  ((skip_asymmetry (initTracker none "products.csv") "u-skip"
      "No image URL").2
    (fun m hm => absurd hm (List.not_mem_nil m))).2
    [("Image Link", "u-skip")] (by decide)

/-- C10: reserved record keys in the metadata bag overwrite the fixed
fields of the record appended by `mark_success` *and* by `mark_failed`
(Python `dict.update` on both); in particular a `mark_success` call whose
metadata carries a `status` value other than "success" yields a record
excluded from `get_successful_mappings` and from the reconciler's success
lookup, and dually a `mark_failed` call whose metadata carries
`status = "success"` yields a record *included* in
`get_successful_mappings`. -/
theorem metadata_overwrites_record (t : ProgressTracker)
    (u nu iid er v now : String) (meta : Dict) (io : Bool)
    (hnd : (meta.map Prod.fst).Nodup) :
    (∀ k w, dictGet meta k = some w →
        dictGet (successRecord u nu iid (some meta)) k = some w)
    ∧ (∀ k w, dictGet meta k = some w →
        dictGet (failRecord u er (some meta)) k = some w)
    ∧ (mark_success t u nu iid (some meta) now io).state.mappings
        = t.state.mappings ++ [successRecord u nu iid (some meta)]
    ∧ (mark_failed t u er (some meta) now io).state.mappings
        = t.state.mappings ++ [failRecord u er (some meta)]
    ∧ (mark_failed t u er (some meta) now io).state.failed_items
        = t.state.failed_items ++ [failRecord u er (some meta)]
    ∧ (dictGet meta "status" = some v → v ≠ "success" →
        dictGet (successRecord u nu iid (some meta)) "status" = some v
        ∧ get_successful_mappings (mark_success t u nu iid (some meta) now io)
            = get_successful_mappings t
        ∧ successLookup
            (mark_success t u nu iid (some meta) now io).state.mappings
          = successLookup t.state.mappings)
    ∧ (dictGet meta "status" = some "success" →
        failRecord u er (some meta)
          ∈ get_successful_mappings (mark_failed t u er (some meta) now io)) := by
  refine ⟨?_, ?_, mark_success_mappings .., rfl, rfl, ?_, ?_⟩
  · intro k w hw
    exact dictGet_update_of_get meta _ _ _ hnd hw
  · intro k w hw
    exact dictGet_update_of_get meta _ _ _ hnd hw
  · intro hv hne
    have hstat : dictGet (successRecord u nu iid (some meta)) "status"
        = some v :=
      dictGet_update_of_get meta _ _ _ hnd hv
    have hnot : ¬(dictGet (successRecord u nu iid (some meta)) "status"
        = some "success") := by
      rw [hstat]
      simp [hne]
    refine ⟨hstat, ?_, ?_⟩
    · unfold get_successful_mappings
      rw [mark_success_mappings, List.filter_append]
      have hemp : List.filter
          (fun m => decide (dictGet m "status" = some "success"))
          [successRecord u nu iid (some meta)] = [] := by
        simp [List.filter, hnot]
      rw [hemp, List.append_nil]
    · rw [mark_success_mappings]
      unfold successLookup
      rw [List.foldl_append]
      simp [successLookupStep, hnot]
  · intro hs
    have hstat : dictGet (failRecord u er (some meta)) "status"
        = some "success" :=
      dictGet_update_of_get meta _ _ _ hnd hs
    unfold get_successful_mappings
    refine List.mem_filter.mpr ⟨?_, ?_⟩
    · exact List.mem_append_right _ (List.mem_singleton_self _)
    · simp [hstat]

/-- Witness for C10: metadata `{'status': 'oops'}` on `mark_success`,
metadata `{'new_url': ...}` and `{'status': 'success'}` on `mark_failed`,
all at a fresh tracker. -/
theorem metadata_overwrites_record_witness :
    dictGet (successRecord "u1" "n1" "i1" (some [("status", "oops")]))
        "status" = some "oops"
    ∧ get_successful_mappings (mark_success (initTracker none "f.csv") "u1"
        "n1" "i1" (some [("status", "oops")]) "t1" true)
      = get_successful_mappings (initTracker none "f.csv")
    ∧ dictGet (failRecord "u2" "boom" (some [("new_url", "http://sneaky")]))
        "new_url" = some "http://sneaky"
    ∧ failRecord "u2" "boom" (some [("status", "success")])
        ∈ get_successful_mappings (mark_failed (initTracker none "f.csv")
            "u2" "boom" (some [("status", "success")]) "t1" true) := by
  have h1 := metadata_overwrites_record (initTracker none "f.csv") "u1" "n1"
    "i1" "boom" "oops" "t1" [("status", "oops")] true (by decide)
  have h2 := metadata_overwrites_record (initTracker none "f.csv") "u2" "n2"
    "i2" "boom" "x" "t1" [("new_url", "http://sneaky")] true (by decide)
  have h3 := metadata_overwrites_record (initTracker none "f.csv") "u2" "n2"
    "i2" "boom" "x" "t1" [("status", "success")] true (by decide)
  have hex := h1.2.2.2.2.2.1 (by decide) (by decide)
  exact ⟨hex.1, hex.2.1,
    h2.2.1 "new_url" "http://sneaky" (by decide),
    h3.2.2.2.2.2.2 (by decide)⟩
